import Mathlib

/-!
Shallow embedding of the chat relay edge function (the `serve` handler and its
two provider adapters `callGrok` and `callCampusAssistantAI`) of the campus
enquiry bot, together with theorems settling the specification claims about
its provider-failover request pipeline.

The handler is a pure function of: the environment (the two provider
credentials), the inbound request (method, authorization header, the outcome
of identity verification, and the parsed body), and the behavior of each
upstream fetch (an HTTP response or a thrown exception). Network effects are
abstracted as a function from the assembled message list and credential to a
`FetchBehavior`; everything else is translated branch-for-branch from the
source.
-/

namespace CampusBot

/-- The fixed institutional system prompt (`IARE_SYSTEM_PROMPT` in the source;
the text is abbreviated here — the handler never inspects it, it is only the
content of the leading system message). -/
def IARE_SYSTEM_PROMPT : String :=
  "You are a friendly and helpful AI Assistant for the Institute of Aeronautical Engineering (IARE), Dundigal, Hyderabad."

/-- A chat message `{ role, content }`, used both for the caller-supplied
conversation history and for the assembled provider message list. -/
structure ChatMessage where
  role : String
  content : String
  deriving DecidableEq, Repr

/-- A JSON-ish JavaScript value, as far as the handler inspects the `message`
field of the request body. An absent field is modelled as `none` at the use
site (`Option JsVal`). -/
inductive JsVal where
  | vStr (s : String)
  | vNum (n : Int)
  | vBool (b : Bool)
  | vNull
  deriving DecidableEq, Repr

/-- JavaScript truthiness of a possibly-absent value (`undefined`, `null`,
`""`, `0` and `false` are falsy). -/
def jsTruthy : Option JsVal → Bool
  | none => false
  | some (.vStr s) => if s = "" then false else true
  | some (.vNum n) => if n = 0 then false else true
  | some (.vBool b) => b
  | some .vNull => false

/-- `typeof message === 'string'`. -/
def isStringVal : Option JsVal → Bool
  | some (.vStr _) => true
  | _ => false

/-- The body-validation test `!message || typeof message !== 'string'`
(true means the handler rejects with 400). -/
def messageRejected (message : Option JsVal) : Bool :=
  !jsTruthy message || !isStringVal message

/-- The string carried by an accepted `message` value. -/
def messageString : Option JsVal → String
  | some (.vStr s) => s
  | _ => ""

/-- JavaScript truthiness of a `string | undefined` value (an absent or empty
string is falsy); used for the credential checks `if (GROK_API_KEY)` and for
`grokResult.response` in `grokResult.ok && grokResult.response`. -/
def truthyStr : Option String → Bool
  | none => false
  | some s => if s = "" then false else true

/-- `authHeader?.startsWith('Bearer ')` — false when the header is absent. -/
def bearerOk : Option String → Bool
  | none => false
  | some h => ("Bearer ").data.isPrefixOf h.data

/-- The parsed JSON request body:
`const { message, conversationHistory = [] } = await req.json()`.
`message` is `none` when the field is absent; `conversationHistory` is `none`
when absent (defaulted to `[]`). -/
structure ReqBody where
  message : Option JsVal
  conversationHistory : Option (List ChatMessage)
  deriving DecidableEq, Repr

deriving instance DecidableEq for Except

/-- The inbound request as the handler observes it. `claimsValid` is the
outcome of the external identity verification
(`supabase.auth.getClaims(token)`): true iff no `claimsError` and claims are
present. `body` is `Except.error e` when `await req.json()` throws (invalid
JSON, or a non-object body whose destructuring throws), carrying the thrown
error message. -/
structure Request where
  method : String
  authHeader : Option String
  claimsValid : Bool
  body : Except String ReqBody
  deriving DecidableEq, Repr

/-- The environment credentials read by the handler. -/
structure Env where
  GROK_API_KEY : Option String
  CAMPUS_ASSISTANT_API_KEY : Option String
  deriving DecidableEq, Repr

/-- Behavior of one upstream `fetch` (plus the subsequent body read/parse):
either an HTTP response with `response.ok` true carrying
`data.choices?.[0]?.message?.content` (possibly absent), or a non-ok HTTP
response with its status and raw body text, or a thrown exception (network
unreachable etc.) carrying the error message. -/
inductive FetchBehavior where
  | httpOk (text : Option String)
  | httpErr (status : Nat) (body : String)
  | throws (msg : String)
  deriving DecidableEq, Repr

/-- The `{ ok, response?, status?, errorDetails? }` object returned by each
provider adapter. -/
structure ProviderOutcome where
  ok : Bool
  response : Option String := none
  status : Option Nat := none
  errorDetails : Option String := none
  deriving DecidableEq, Repr

/-- A network oracle: the upstream behavior as a function of the request the
adapter sends (assembled messages and credential). -/
def Net : Type := List ChatMessage → String → FetchBehavior

/-- `callGrok(messages, apiKey)`: one POST to the xAI chat-completion
endpoint. On a non-ok HTTP response it returns
`{ ok: false, status, errorDetails: rawBody }`; on an ok response it returns
`{ ok: true, response: data.choices?.[0]?.message?.content }`; a thrown
exception propagates (`Except.error`). -/
def callGrok (messages : List ChatMessage) (apiKey : String) (net : Net) :
    Except String ProviderOutcome :=
  match net messages apiKey with
  | .throws m => .error m
  | .httpErr status body =>
      .ok { ok := false, status := some status, errorDetails := some body }
  | .httpOk text => .ok { ok := true, response := text }

/-- `callCampusAssistantAI(messages, apiKey)`: identical outcome logic to
`callGrok`, aimed at the fallback gateway endpoint. -/
def callCampusAssistantAI (messages : List ChatMessage) (apiKey : String) (net : Net) :
    Except String ProviderOutcome :=
  match net messages apiKey with
  | .throws m => .error m
  | .httpErr status body =>
      .ok { ok := false, status := some status, errorDetails := some body }
  | .httpOk text => .ok { ok := true, response := text }

/-- The JSON body of the handler response: `null` (CORS preflight),
`{ error }`, `{ error, details, status }`, or `{ response, provider }`. -/
inductive ResponseBody where
  | jnull
  | jerror (error : String)
  | jerrorDetailed (error : String) (details : Option String) (status : Option Nat)
  | jsuccess (response : String) (provider : String)
  deriving DecidableEq, Repr

/-- An HTTP response of the handler (status and JSON body; the constant CORS
headers are omitted). A `Response` built without an explicit status has
status 200. -/
structure HttpResponse where
  status : Nat
  body : ResponseBody
  deriving DecidableEq, Repr

/-- The handler result, together with how many times each provider adapter was
invoked during the request. -/
structure ServeResult where
  response : HttpResponse
  grokCalls : Nat
  campusCalls : Nat
  deriving DecidableEq, Repr

/-- The message assembly (source lines 161–168): the fixed system message,
then the caller history passed through (role and content fields only), then
the new user message. -/
def buildMessages (conversationHistory : List ChatMessage) (message : String) :
    List ChatMessage :=
  ({ role := "system", content := IARE_SYSTEM_PROMPT } : ChatMessage) ::
    (conversationHistory.map fun msg => { role := msg.role, content := msg.content }) ++
    [{ role := "user", content := message }]

/-- The retryable upstream statuses:
`[403, 429, 500, 502, 503].includes(grokResult.status ?? 0)`. -/
def FALLBACK_STATUSES : List Nat := [403, 429, 500, 502, 503]

/-- The fallback block (source lines 199–236): runs when the primary produced
no `aiResponse`. If the secondary credential is truthy, call the secondary
adapter and map its outcome (success → 200; status 429 → 429 rate-limit;
status 402 → 402 credits-exhausted; anything else → 500 with details); when a
thrown exception escapes it is caught by the surrounding catch-all (500 with
the error message). If the secondary credential is not configured, fall
through to the 503 AllProvidersFailed response. `grokCalls` records how often
the primary adapter ran before this step. -/
def fallbackStep (env : Env) (messages : List ChatMessage) (campusNet : Net)
    (grokCalls : Nat) : ServeResult :=
  if truthyStr env.CAMPUS_ASSISTANT_API_KEY then
    match callCampusAssistantAI messages (env.CAMPUS_ASSISTANT_API_KEY.getD ("")) campusNet with
    | .error e => ⟨⟨500, .jerror e⟩, grokCalls, 1⟩
    | .ok campusAssistantResult =>
      if campusAssistantResult.ok && truthyStr campusAssistantResult.response then
        ⟨⟨200, .jsuccess (campusAssistantResult.response.getD ("")) ("campus-assistant-ai")⟩,
          grokCalls, 1⟩
      else if campusAssistantResult.status = some 429 then
        ⟨⟨429, .jerror ("Rate limit exceeded. Please try again in a moment.")⟩, grokCalls, 1⟩
      else if campusAssistantResult.status = some 402 then
        ⟨⟨402, .jerror ("AI credits exhausted. Please add credits to your workspace.")⟩,
          grokCalls, 1⟩
      else
        ⟨⟨500, .jerrorDetailed ("AI service error. Please try again.")
            campusAssistantResult.errorDetails campusAssistantResult.status⟩, grokCalls, 1⟩
  else
    ⟨⟨503, .jerror ("No AI provider could fulfill the request.")⟩, grokCalls, 0⟩

/-- The provider attempt sequence (source lines 173–243): try the primary
when its credential is truthy; on success (ok and truthy response) answer 200
with provider `grok`; on failure, fall back only when the status is in
`FALLBACK_STATUSES` (`grokResult.status ?? 0`), otherwise answer immediately
with the upstream status (`grokResult.status ?? 500`) and the upstream error
details; a thrown exception is caught by the surrounding catch-all. -/
def primaryThenFallback (env : Env) (messages : List ChatMessage)
    (grokNet campusNet : Net) : ServeResult :=
  if truthyStr env.GROK_API_KEY then
    match callGrok messages (env.GROK_API_KEY.getD ("")) grokNet with
    | .error e => ⟨⟨500, .jerror e⟩, 1, 0⟩
    | .ok grokResult =>
      if grokResult.ok && truthyStr grokResult.response then
        ⟨⟨200, .jsuccess (grokResult.response.getD ("")) ("grok")⟩, 1, 0⟩
      else if !(FALLBACK_STATUSES.contains (grokResult.status.getD 0)) then
        ⟨⟨grokResult.status.getD 500,
          .jerrorDetailed ("AI provider error. Please check your Grok API key.")
            grokResult.errorDetails grokResult.status⟩, 1, 0⟩
      else
        fallbackStep env messages campusNet 1
  else
    fallbackStep env messages campusNet 0

/-- The `serve` handler (source lines 108–251). CORS preflight answers
directly; then, inside the try block: the configuration check (500 when
neither credential is truthy), the authorization-header check (401), identity
verification (401), body parsing (a throw reaches the catch-all as a 500 with
the error message), message validation (400), message assembly, and the
provider attempt sequence. -/
def serve (env : Env) (req : Request) (grokNet campusNet : Net) : ServeResult :=
  if req.method = "OPTIONS" then
    ⟨⟨200, .jnull⟩, 0, 0⟩
  else if !truthyStr env.GROK_API_KEY && !truthyStr env.CAMPUS_ASSISTANT_API_KEY then
    ⟨⟨500, .jerror ("AI service not configured. Please contact administrator.")⟩, 0, 0⟩
  else if !bearerOk req.authHeader then
    ⟨⟨401, .jerror ("Unauthorized")⟩, 0, 0⟩
  else if !req.claimsValid then
    ⟨⟨401, .jerror ("Unauthorized")⟩, 0, 0⟩
  else
    match req.body with
    | .error e => ⟨⟨500, .jerror e⟩, 0, 0⟩
    | .ok b =>
      if messageRejected b.message then
        ⟨⟨400, .jerror ("Message is required")⟩, 0, 0⟩
      else
        primaryThenFallback env
          (buildMessages (b.conversationHistory.getD []) (messageString b.message))
          grokNet campusNet

/-! ### Concrete fixtures used by witnesses and counterexamples -/

/-- An environment with both provider credentials configured. -/
def envBoth : Env := ⟨some ("gk"), some ("ck")⟩

/-- An environment with only the secondary credential configured. -/
def envCampusOnly : Env := ⟨none, some ("ck")⟩

/-- An environment with only the primary credential configured. -/
def envGrokOnly : Env := ⟨some ("gk"), none⟩

/-- An environment with no provider credential configured. -/
def envNone : Env := ⟨none, none⟩

/-- A well-formed request body with a non-empty string message. -/
def bodyGood : ReqBody := ⟨some (.vStr ("Hi")), none⟩

/-- A request passing every precondition. -/
def reqGood : Request := ⟨"POST", some ("Bearer tok"), true, .ok bodyGood⟩

/-- An authenticated request whose body failed to parse as JSON
(`await req.json()` threw). -/
def reqBadJson : Request := ⟨"POST", some ("Bearer tok"), true, .error ("Unexpected token")⟩

/-- A network oracle that always answers ok with text. -/
def netOkHello : Net := fun _ _ => .httpOk (some ("Hello"))

/-! ### Helper lemmas -/

/-- When the method is not OPTIONS, at least one credential is truthy, the
bearer header and identity verification pass, and the body parses with an
accepted message, `serve` reduces to the provider attempt sequence on the
assembled messages. -/
theorem serve_eq_primaryThenFallback (env : Env) (req : Request)
    (grokNet campusNet : Net) (b : ReqBody)
    (hmethod : req.method ≠ "OPTIONS")
    (hconf : (truthyStr env.GROK_API_KEY || truthyStr env.CAMPUS_ASSISTANT_API_KEY) = true)
    (hbearer : bearerOk req.authHeader = true)
    (hclaims : req.claimsValid = true)
    (hbody : req.body = .ok b)
    (hmsg : messageRejected b.message = false) :
    serve env req grokNet campusNet =
      primaryThenFallback env
        (buildMessages (b.conversationHistory.getD []) (messageString b.message))
        grokNet campusNet := by
  have hc : (!truthyStr env.GROK_API_KEY && !truthyStr env.CAMPUS_ASSISTANT_API_KEY) = false := by
    cases h1 : truthyStr env.GROK_API_KEY <;>
      cases h2 : truthyStr env.CAMPUS_ASSISTANT_API_KEY <;> simp_all
  simp [serve, hmethod, hc, hbearer, hclaims, hbody, hmsg]

/-! ### Claims -/

/-- C1: for every request passing all preconditions, if the primary
credential is configured and the primary call returns ok:false with an HTTP
status outside the retryable set {403, 429, 500, 502, 503}, the handler
responds immediately with that upstream status, echoing the upstream error
details in the body, and the secondary provider client is never invoked. -/
theorem primary_hard_failure_short_circuits (env : Env) (req : Request)
    (campusNet : Net) (b : ReqBody) (status : Nat) (bodyText : String)
    (hmethod : req.method ≠ "OPTIONS")
    (hg : truthyStr env.GROK_API_KEY = true)
    (hbearer : bearerOk req.authHeader = true)
    (hclaims : req.claimsValid = true)
    (hbody : req.body = .ok b)
    (hmsg : messageRejected b.message = false)
    (hhard : FALLBACK_STATUSES.contains status = false) :
    serve env req (fun _ _ => .httpErr status bodyText) campusNet =
      ⟨⟨status, .jerrorDetailed ("AI provider error. Please check your Grok API key.")
          (some bodyText) (some status)⟩, 1, 0⟩ := by
  have hh : status ∉ FALLBACK_STATUSES := by simpa using hhard
  rw [serve_eq_primaryThenFallback env req _ campusNet b hmethod (by simp [hg])
    hbearer hclaims hbody hmsg]
  simp [primaryThenFallback, callGrok, hg, hh]

/-- C1 witness: primary returns 401 `invalid_api_key`; the handler answers
401 echoing the details, with the secondary configured but never called. -/
theorem primary_hard_failure_short_circuits_witness :
    serve envBoth reqGood (fun _ _ => .httpErr 401 ("invalid_api_key")) netOkHello =
      ⟨⟨401, .jerrorDetailed ("AI provider error. Please check your Grok API key.")
          (some ("invalid_api_key")) (some 401)⟩, 1, 0⟩ :=
  primary_hard_failure_short_circuits envBoth reqGood netOkHello bodyGood 401
    ("invalid_api_key") (by decide) (by decide) (by decide) (by decide) rfl
    (by decide) (by decide)

/-- C3 counterexample: with the primary succeeding with text `Hello`, the
200 response's provider field is the literal string `grok`, not `primary` as
the claim states. -/
theorem primary_success_provider_field_counterexample :
    serve envBoth reqGood (fun _ _ => .httpOk (some ("Hello"))) netOkHello =
      ⟨⟨200, .jsuccess ("Hello") ("grok")⟩, 1, 0⟩ ∧
    (serve envBoth reqGood (fun _ _ => .httpOk (some ("Hello"))) netOkHello).response.body ≠
      .jsuccess ("Hello") ("primary") :=
  ⟨rfl, by decide⟩

/-- C3 amended: for every request passing all preconditions, if the primary
credential is configured and the primary call returns ok:true with non-empty
text, the handler returns 200 with that text and provider field `grok` (the
primary provider's identifier), and the secondary client is never invoked. -/
theorem primary_success_returns_primary_text (env : Env) (req : Request)
    (campusNet : Net) (b : ReqBody) (t : String)
    (hmethod : req.method ≠ "OPTIONS")
    (hg : truthyStr env.GROK_API_KEY = true)
    (hbearer : bearerOk req.authHeader = true)
    (hclaims : req.claimsValid = true)
    (hbody : req.body = .ok b)
    (hmsg : messageRejected b.message = false)
    (ht : t ≠ "") :
    serve env req (fun _ _ => .httpOk (some t)) campusNet =
      ⟨⟨200, .jsuccess t ("grok")⟩, 1, 0⟩ := by
  have ht2 : truthyStr (some t) = true := by simp [truthyStr, ht]
  rw [serve_eq_primaryThenFallback env req _ campusNet b hmethod (by simp [hg])
    hbearer hclaims hbody hmsg]
  simp [primaryThenFallback, callGrok, hg, ht2]

/-- C3 amended witness: primary returns `Hello`; the handler answers 200 with
provider `grok` and zero secondary calls. -/
theorem primary_success_returns_primary_text_witness :
    serve envBoth reqGood (fun _ _ => .httpOk (some ("Hello"))) netOkHello =
      ⟨⟨200, .jsuccess ("Hello") ("grok")⟩, 1, 0⟩ :=
  primary_success_returns_primary_text envBoth reqGood netOkHello bodyGood ("Hello")
    (by decide) (by decide) (by decide) (by decide) rfl (by decide) (by decide)

/-- C10: if the primary call returns ok:true but with empty or missing text,
the handler does not fall back even though a secondary credential is
configured: the missing `httpStatus` classifies the failure as hard
(`status ?? 0` is not retryable) and the handler returns 500
(`status ?? 500`) with undefined details, never invoking the secondary. -/
theorem primary_empty_success_no_fallback (env : Env) (req : Request)
    (campusNet : Net) (b : ReqBody) (t : Option String)
    (hmethod : req.method ≠ "OPTIONS")
    (hg : truthyStr env.GROK_API_KEY = true)
    (hck : truthyStr env.CAMPUS_ASSISTANT_API_KEY = true)
    (hbearer : bearerOk req.authHeader = true)
    (hclaims : req.claimsValid = true)
    (hbody : req.body = .ok b)
    (hmsg : messageRejected b.message = false)
    (ht : truthyStr t = false) :
    serve env req (fun _ _ => .httpOk t) campusNet =
      ⟨⟨500, .jerrorDetailed ("AI provider error. Please check your Grok API key.")
          none none⟩, 1, 0⟩ := by
  rw [serve_eq_primaryThenFallback env req _ campusNet b hmethod (by simp [hg])
    hbearer hclaims hbody hmsg]
  simp [primaryThenFallback, callGrok, hg, ht, FALLBACK_STATUSES]

/-- C10 witness: primary answers ok with no choices (missing text) while the
secondary is configured; the handler returns 500 with undefined details and
zero secondary calls. -/
theorem primary_empty_success_no_fallback_witness :
    serve envBoth reqGood (fun _ _ => .httpOk none) netOkHello =
      ⟨⟨500, .jerrorDetailed ("AI provider error. Please check your Grok API key.")
          none none⟩, 1, 0⟩ :=
  primary_empty_success_no_fallback envBoth reqGood netOkHello bodyGood none
    (by decide) (by decide) (by decide) (by decide) (by decide) rfl (by decide) (by decide)

/-- C2 counterexample: primary fails with 429 and the secondary succeeds with
`Hello`; the 200 response's provider field is the literal string
`campus-assistant-ai`, not `secondary` as the claim states. -/
theorem fallback_success_provider_field_counterexample :
    serve envBoth reqGood (fun _ _ => .httpErr 429 ("rate limited")) netOkHello =
      ⟨⟨200, .jsuccess ("Hello") ("campus-assistant-ai")⟩, 1, 1⟩ ∧
    (serve envBoth reqGood (fun _ _ => .httpErr 429 ("rate limited")) netOkHello).response.body ≠
      .jsuccess ("Hello") ("secondary") :=
  ⟨rfl, by decide⟩

/-- C2 amended: for every request passing all preconditions, if the primary
fails with a status in the retryable set, the secondary credential is
configured, and the secondary call succeeds with non-empty text, the handler
returns 200 carrying that text and the provider field `campus-assistant-ai`
(the secondary provider's identifier). -/
theorem fallback_success_returns_secondary_text (env : Env) (req : Request)
    (b : ReqBody) (ps : Nat) (pbody t : String)
    (hmethod : req.method ≠ "OPTIONS")
    (hg : truthyStr env.GROK_API_KEY = true)
    (hck : truthyStr env.CAMPUS_ASSISTANT_API_KEY = true)
    (hbearer : bearerOk req.authHeader = true)
    (hclaims : req.claimsValid = true)
    (hbody : req.body = .ok b)
    (hmsg : messageRejected b.message = false)
    (hretry : FALLBACK_STATUSES.contains ps = true)
    (ht : t ≠ "") :
    serve env req (fun _ _ => .httpErr ps pbody) (fun _ _ => .httpOk (some t)) =
      ⟨⟨200, .jsuccess t ("campus-assistant-ai")⟩, 1, 1⟩ := by
  have ht2 : truthyStr (some t) = true := by simp [truthyStr, ht]
  have hps2 : ps ∈ FALLBACK_STATUSES := by simpa using hretry
  rw [serve_eq_primaryThenFallback env req _ _ b hmethod (by simp [hg])
    hbearer hclaims hbody hmsg]
  simp [primaryThenFallback, fallbackStep, callGrok, callCampusAssistantAI, hg, hck,
    hps2, ht2]

/-- C2 amended witness: primary 429, secondary succeeds with `Hello`; the
handler answers 200 with provider `campus-assistant-ai`. -/
theorem fallback_success_returns_secondary_text_witness :
    serve envBoth reqGood (fun _ _ => .httpErr 429 ("rate limited")) (fun _ _ => .httpOk (some ("Hello"))) =
      ⟨⟨200, .jsuccess ("Hello") ("campus-assistant-ai")⟩, 1, 1⟩ :=
  fallback_success_returns_secondary_text envBoth reqGood bodyGood 429
    ("rate limited") ("Hello") (by decide) (by decide) (by decide) (by decide)
    (by decide) rfl (by decide) (by decide) (by decide)

/-- Modelled from the spec: the response mapping the spec assigns to a failed
secondary attempt — 429 with a rate-limit message, 402 with a
credits-exhausted message, otherwise an upstream-hard-failure error response
(surfaced as 500 with the upstream details). Stated separately so the
handler's behavior can be compared against it. -/
def specSecondaryFailureMapping (status : Nat) (body : String) : HttpResponse :=
  if status = 429 then
    ⟨429, .jerror ("Rate limit exceeded. Please try again in a moment.")⟩
  else if status = 402 then
    ⟨402, .jerror ("AI credits exhausted. Please add credits to your workspace.")⟩
  else
    ⟨500, .jerrorDetailed ("AI service error. Please try again.") (some body) (some status)⟩

/-- C4: whenever the fallback is attempted (primary unconfigured, or primary
failed with a retryable status) and the secondary call fails, the handler
returns 429 with a rate-limit message when the secondary's status is 429, 402
with a credits-exhausted message when it is 402, and otherwise a 500
upstream-hard-failure error response echoing the details; the secondary is
invoked exactly once (never retried further). -/
theorem secondary_failure_status_mapping (env : Env) (req : Request)
    (grokNet : Net) (b : ReqBody) (sstatus : Nat) (sbody : String)
    (hmethod : req.method ≠ "OPTIONS")
    (hck : truthyStr env.CAMPUS_ASSISTANT_API_KEY = true)
    (hbearer : bearerOk req.authHeader = true)
    (hclaims : req.claimsValid = true)
    (hbody : req.body = .ok b)
    (hmsg : messageRejected b.message = false)
    (hroute : truthyStr env.GROK_API_KEY = false ∨
      ∃ ps pbody, (∀ ms k, grokNet ms k = .httpErr ps pbody) ∧
        FALLBACK_STATUSES.contains ps = true) :
    (serve env req grokNet (fun _ _ => .httpErr sstatus sbody)).response =
      specSecondaryFailureMapping sstatus sbody ∧
    (serve env req grokNet (fun _ _ => .httpErr sstatus sbody)).campusCalls = 1 := by
  rw [serve_eq_primaryThenFallback env req grokNet _ b hmethod (by simp [hck])
    hbearer hclaims hbody hmsg]
  rcases hroute with hgk | ⟨ps, pbody, hnet, hps⟩
  · simp [primaryThenFallback, hgk, fallbackStep, callCampusAssistantAI, hck,
      specSecondaryFailureMapping]
    split_ifs <;> simp_all
  · have hps2 : ps ∈ FALLBACK_STATUSES := by simpa using hps
    simp [primaryThenFallback, callGrok, hnet, hps2, fallbackStep,
      callCampusAssistantAI, hck, specSecondaryFailureMapping]
    split_ifs <;> simp_all

/-- C4 witness: primary retryable-fails with 503, secondary fails with 429;
the handler answers 429 with the rate-limit message and one secondary call. -/
theorem secondary_failure_status_mapping_witness :
    (serve envBoth reqGood (fun _ _ => .httpErr 503 ("down")) (fun _ _ => .httpErr 429 ("rl"))).response =
      specSecondaryFailureMapping 429 ("rl") ∧
    (serve envBoth reqGood (fun _ _ => .httpErr 503 ("down")) (fun _ _ => .httpErr 429 ("rl"))).campusCalls = 1 :=
  secondary_failure_status_mapping envBoth reqGood (fun _ _ => .httpErr 503 ("down"))
    bodyGood 429 ("rl") (by decide) (by decide) (by decide) (by decide) rfl (by decide)
    (Or.inr ⟨503, ("down"), fun _ _ => rfl, by decide⟩)

/-- C8 counterexample: the primary call throws `network unreachable` while
the secondary is configured and healthy; the handler answers 500 via the
catch-all and never attempts the fallback, contradicting the claim that a
throw is treated as a retryable failure. -/
theorem provider_throw_counterexample :
    serve envBoth reqGood (fun _ _ => .throws ("network unreachable")) netOkHello =
      ⟨⟨500, .jerror ("network unreachable")⟩, 1, 0⟩ ∧
    (serve envBoth reqGood (fun _ _ => .throws ("network unreachable")) netOkHello).campusCalls = 0 :=
  ⟨rfl, by decide⟩

/-- C8 amended: a primary provider call that throws (outside the
ProviderOutcome contract) propagates to the handler's catch-all: the response
is HTTP 500 carrying the thrown error message, and no fallback to the
secondary is attempted even when a secondary credential is configured. -/
theorem provider_throw_caught_as_500 (env : Env) (req : Request)
    (campusNet : Net) (b : ReqBody) (m : String)
    (hmethod : req.method ≠ "OPTIONS")
    (hg : truthyStr env.GROK_API_KEY = true)
    (hbearer : bearerOk req.authHeader = true)
    (hclaims : req.claimsValid = true)
    (hbody : req.body = .ok b)
    (hmsg : messageRejected b.message = false) :
    serve env req (fun _ _ => .throws m) campusNet =
      ⟨⟨500, .jerror m⟩, 1, 0⟩ := by
  rw [serve_eq_primaryThenFallback env req _ campusNet b hmethod (by simp [hg])
    hbearer hclaims hbody hmsg]
  simp [primaryThenFallback, callGrok, hg]

/-- C8 amended witness: a thrown primary call surfaces as 500 with the thrown
message and zero secondary calls. -/
theorem provider_throw_caught_as_500_witness :
    serve envBoth reqGood (fun _ _ => .throws ("network unreachable")) netOkHello =
      ⟨⟨500, .jerror ("network unreachable")⟩, 1, 0⟩ :=
  provider_throw_caught_as_500 envBoth reqGood netOkHello bodyGood
    ("network unreachable") (by decide) (by decide) (by decide) (by decide) rfl (by decide)

/-- C9 counterexample: primary not configured and the secondary fails with
418; the handler answers 500 with the secondary-failure mapping, not 503 as
the claim's "primary not configured and secondary failed" example states. -/
theorem secondary_failed_not_503_counterexample :
    serve envCampusOnly reqGood netOkHello (fun _ _ => .httpErr 418 ("teapot")) =
      ⟨⟨500, .jerrorDetailed ("AI service error. Please try again.")
          (some ("teapot")) (some 418)⟩, 0, 1⟩ ∧
    (serve envCampusOnly reqGood netOkHello (fun _ _ => .httpErr 418 ("teapot"))).response.status ≠ 503 :=
  ⟨rfl, by decide⟩

/-- C9 amended: the 503 AllProvidersFailed response arises when the primary
fails with a retryable status and no secondary credential is configured (so
no fallback is possible); when the secondary was attempted and failed, the
secondary-failure mapping (429/402/500) answers instead. -/
theorem all_providers_failed_503 (env : Env) (req : Request)
    (campusNet : Net) (b : ReqBody) (ps : Nat) (pbody : String)
    (hmethod : req.method ≠ "OPTIONS")
    (hg : truthyStr env.GROK_API_KEY = true)
    (hck : truthyStr env.CAMPUS_ASSISTANT_API_KEY = false)
    (hbearer : bearerOk req.authHeader = true)
    (hclaims : req.claimsValid = true)
    (hbody : req.body = .ok b)
    (hmsg : messageRejected b.message = false)
    (hretry : FALLBACK_STATUSES.contains ps = true) :
    serve env req (fun _ _ => .httpErr ps pbody) campusNet =
      ⟨⟨503, .jerror ("No AI provider could fulfill the request.")⟩, 1, 0⟩ := by
  rw [serve_eq_primaryThenFallback env req _ campusNet b hmethod (by simp [hg])
    hbearer hclaims hbody hmsg]
  have hps2 : ps ∈ FALLBACK_STATUSES := by simpa using hretry
  simp [primaryThenFallback, callGrok, hg, hps2, fallbackStep, hck]

/-- C9 amended witness: primary retryable-fails with 503 and no secondary is
configured; the handler answers 503 with the AllProvidersFailed message. -/
theorem all_providers_failed_503_witness :
    serve envGrokOnly reqGood (fun _ _ => .httpErr 503 ("down")) netOkHello =
      ⟨⟨503, .jerror ("No AI provider could fulfill the request.")⟩, 1, 0⟩ :=
  all_providers_failed_503 envGrokOnly reqGood netOkHello bodyGood 503 ("down")
    (by decide) (by decide) (by decide) (by decide) (by decide) rfl (by decide) (by decide)

/-- A request with no Authorization header. -/
def reqNoAuth : Request := ⟨"POST", none, true, .ok bodyGood⟩

/-- A bearer request whose identity verification fails. -/
def reqBadClaims : Request := ⟨"POST", some ("Bearer tok"), false, .ok bodyGood⟩

/-- A request body whose message is the empty string. -/
def bodyEmptyMsg : ReqBody := ⟨some (.vStr ("")), none⟩

/-- An authenticated request with an empty-string message. -/
def reqEmptyMsg : Request := ⟨"POST", some ("Bearer tok"), true, .ok bodyEmptyMsg⟩

/-- C5: the handler checks its preconditions in a fixed order, each failing
check short-circuiting with zero provider calls: (1) neither credential
truthy → 500 not-configured, regardless of the authorization header,
identity verification, or request body (so before any authentication or
parsing); (2) no bearer Authorization header → 401; (3) identity
verification fails → 401; (4) message invalid → 400. -/
theorem precondition_order :
    (∀ (env : Env) (req : Request) (grokNet campusNet : Net),
      req.method ≠ "OPTIONS" →
      truthyStr env.GROK_API_KEY = false →
      truthyStr env.CAMPUS_ASSISTANT_API_KEY = false →
      serve env req grokNet campusNet =
        ⟨⟨500, .jerror ("AI service not configured. Please contact administrator.")⟩, 0, 0⟩) ∧
    (∀ (env : Env) (req : Request) (grokNet campusNet : Net),
      req.method ≠ "OPTIONS" →
      (truthyStr env.GROK_API_KEY || truthyStr env.CAMPUS_ASSISTANT_API_KEY) = true →
      bearerOk req.authHeader = false →
      serve env req grokNet campusNet = ⟨⟨401, .jerror ("Unauthorized")⟩, 0, 0⟩) ∧
    (∀ (env : Env) (req : Request) (grokNet campusNet : Net),
      req.method ≠ "OPTIONS" →
      (truthyStr env.GROK_API_KEY || truthyStr env.CAMPUS_ASSISTANT_API_KEY) = true →
      bearerOk req.authHeader = true →
      req.claimsValid = false →
      serve env req grokNet campusNet = ⟨⟨401, .jerror ("Unauthorized")⟩, 0, 0⟩) ∧
    (∀ (env : Env) (req : Request) (grokNet campusNet : Net) (b : ReqBody),
      req.method ≠ "OPTIONS" →
      (truthyStr env.GROK_API_KEY || truthyStr env.CAMPUS_ASSISTANT_API_KEY) = true →
      bearerOk req.authHeader = true →
      req.claimsValid = true →
      req.body = .ok b →
      messageRejected b.message = true →
      serve env req grokNet campusNet = ⟨⟨400, .jerror ("Message is required")⟩, 0, 0⟩) := by
  refine ⟨?_, ?_, ?_, ?_⟩
  · intro env req grokNet campusNet hmethod h1 h2
    simp [serve, hmethod, h1, h2]
  · intro env req grokNet campusNet hmethod hconf hbearer
    cases hg : truthyStr env.GROK_API_KEY <;>
      cases hc : truthyStr env.CAMPUS_ASSISTANT_API_KEY <;> simp_all [serve]
  · intro env req grokNet campusNet hmethod hconf hbearer hclaims
    cases hg : truthyStr env.GROK_API_KEY <;>
      cases hc : truthyStr env.CAMPUS_ASSISTANT_API_KEY <;> simp_all [serve]
  · intro env req grokNet campusNet b hmethod hconf hbearer hclaims hbody hrej
    cases hg : truthyStr env.GROK_API_KEY <;>
      cases hc : truthyStr env.CAMPUS_ASSISTANT_API_KEY <;> simp_all [serve]

/-- C5 witness: each precondition failure at a concrete request — no
credentials → 500; missing header → 401; failed verification → 401; empty
message → 400 — each with zero provider calls. -/
theorem precondition_order_witness :
    serve envNone reqGood netOkHello netOkHello =
      ⟨⟨500, .jerror ("AI service not configured. Please contact administrator.")⟩, 0, 0⟩ ∧
    serve envBoth reqNoAuth netOkHello netOkHello = ⟨⟨401, .jerror ("Unauthorized")⟩, 0, 0⟩ ∧
    serve envBoth reqBadClaims netOkHello netOkHello = ⟨⟨401, .jerror ("Unauthorized")⟩, 0, 0⟩ ∧
    serve envBoth reqEmptyMsg netOkHello netOkHello = ⟨⟨400, .jerror ("Message is required")⟩, 0, 0⟩ :=
  ⟨precondition_order.1 envNone reqGood netOkHello netOkHello (by decide) (by decide) (by decide),
   precondition_order.2.1 envBoth reqNoAuth netOkHello netOkHello (by decide) (by decide) (by decide),
   precondition_order.2.2.1 envBoth reqBadClaims netOkHello netOkHello (by decide) (by decide)
     (by decide) (by decide),
   precondition_order.2.2.2 envBoth reqEmptyMsg netOkHello netOkHello bodyEmptyMsg (by decide)
     (by decide) (by decide) (by decide) rfl (by decide)⟩

/-- C6 counterexample: an authenticated request whose body fails to parse as
JSON is answered with 500 (the thrown parse error reaches the catch-all),
not 400 as the claim states. -/
theorem invalid_json_returns_500_counterexample :
    serve envBoth reqBadJson netOkHello netOkHello =
      ⟨⟨500, .jerror ("Unexpected token")⟩, 0, 0⟩ ∧
    (serve envBoth reqBadJson netOkHello netOkHello).response.status ≠ 400 :=
  ⟨rfl, by decide⟩

/-- C6 amended: for every authenticated request, a body that fails to parse
as JSON throws and is answered 500 with the thrown error message, while a
body whose `message` is absent, null, empty, or not a string is answered
400; in both cases no provider client is invoked. -/
theorem body_validation_behavior (env : Env) (req : Request)
    (grokNet campusNet : Net)
    (hmethod : req.method ≠ "OPTIONS")
    (hconf : (truthyStr env.GROK_API_KEY || truthyStr env.CAMPUS_ASSISTANT_API_KEY) = true)
    (hbearer : bearerOk req.authHeader = true)
    (hclaims : req.claimsValid = true) :
    (∀ e, req.body = .error e →
      serve env req grokNet campusNet = ⟨⟨500, .jerror e⟩, 0, 0⟩) ∧
    (∀ b, req.body = .ok b → messageRejected b.message = true →
      serve env req grokNet campusNet = ⟨⟨400, .jerror ("Message is required")⟩, 0, 0⟩) := by
  constructor
  · intro e he
    cases hg : truthyStr env.GROK_API_KEY <;>
      cases hc : truthyStr env.CAMPUS_ASSISTANT_API_KEY <;> simp_all [serve]
  · intro b hb hrej
    cases hg : truthyStr env.GROK_API_KEY <;>
      cases hc : truthyStr env.CAMPUS_ASSISTANT_API_KEY <;> simp_all [serve]

/-- C6 amended witness: an unparsable body is answered 500 with the parse
error, and an empty-string message is answered 400, with no provider calls. -/
theorem body_validation_behavior_witness :
    serve envBoth reqBadJson netOkHello netOkHello =
      ⟨⟨500, .jerror ("Unexpected token")⟩, 0, 0⟩ ∧
    serve envBoth reqEmptyMsg netOkHello netOkHello =
      ⟨⟨400, .jerror ("Message is required")⟩, 0, 0⟩ :=
  ⟨(body_validation_behavior envBoth reqBadJson netOkHello netOkHello (by decide) (by decide)
      (by decide) (by decide)).1 ("Unexpected token") rfl,
   (body_validation_behavior envBoth reqEmptyMsg netOkHello netOkHello (by decide) (by decide)
      (by decide) (by decide)).2 bodyEmptyMsg rfl (by decide)⟩

/-- Re-recording a chat message's own role and content is the identity, so
the assembly's pass-through map leaves the history unchanged. -/
theorem chatMessage_map_roles_id (l : List ChatMessage) :
    (l.map fun msg => ({ role := msg.role, content := msg.content } : ChatMessage)) = l := by
  induction l with
  | nil => rfl
  | cons x xs ih => simp [ih]

/-- C7: for every conversation history of length N (including N = 0), the
assembled provider message sequence has length N + 2, with the fixed system
message first and the new user message last, and the N history entries in
between in their original order with role and content unmodified. -/
theorem message_assembly_shape (history : List ChatMessage) (message : String) :
    (buildMessages history message).length = history.length + 2 ∧
    (buildMessages history message).head? =
      some ⟨"system", IARE_SYSTEM_PROMPT⟩ ∧
    (buildMessages history message).drop 1 =
      history ++ [⟨"user", message⟩] := by
  refine ⟨?_, rfl, ?_⟩
  · simp [buildMessages]
  · simp [buildMessages, chatMessage_map_roles_id]

/-- C7 witness: a two-entry history assembles into four messages — system
first, the two history entries unchanged, the user message last. -/
theorem message_assembly_shape_witness :
    (buildMessages [⟨"user", "Hi"⟩, ⟨"assistant", "Hello there"⟩] ("When are exams?")).length =
      ([⟨"user", "Hi"⟩, ⟨"assistant", "Hello there"⟩] : List ChatMessage).length + 2 ∧
    (buildMessages [⟨"user", "Hi"⟩, ⟨"assistant", "Hello there"⟩] ("When are exams?")).head? =
      some ⟨"system", IARE_SYSTEM_PROMPT⟩ ∧
    (buildMessages [⟨"user", "Hi"⟩, ⟨"assistant", "Hello there"⟩] ("When are exams?")).drop 1 =
      [⟨"user", "Hi"⟩, ⟨"assistant", "Hello there"⟩] ++ [⟨"user", ("When are exams?")⟩] :=
  message_assembly_shape [⟨"user", "Hi"⟩, ⟨"assistant", "Hello there"⟩] ("When are exams?")

end CampusBot
